import Mathlib

/-!
Verification of the Signal & News Publishing Consumer of `signalBot`.

The definitions below are a shallow embedding of the consumer code in
`src/src/db.js` (first consumer module, lines 551-881) and
`src/api/run-consumer.js`.  Timestamps are modelled as `Int`
milliseconds (JS `Date` arithmetic), Mongo documents as Lean
structures, and each Mongo update as a pure function on the document
it filters.  A field that may be absent in a document is an `Option`.
-/

set_option maxRecDepth 100000

namespace SignalBot

/-- A signal document of the `ai_signals` collection.  String-rendered
numeric fields (`entry_price`, `stop_loss`, ...) model the JS values as
they are rendered by `String(x)`; `none` models an absent field.
`risk_reward` models the already-rendered `Number(x).toFixed(2)` text,
since IEEE-754 rendering itself is not embedded. -/
structure Sig where
  id : Nat
  status : String
  is_premium : Option Bool
  entry_price : Option String
  entry : Option String
  signal_type : Option String
  market_type : Option String
  pair : Option String
  stop_loss : Option String
  stop : Option String
  take_profit : Option String
  take : Option String
  confidence_level : Option String
  risk_reward : Option String
  reasoning : Option String
  generated_at : Option Int
  expires_at : Int
  claimed_at : Option Int
  sent_at : Option Int
  deferred_at : Option Int
  last_telegram_message_id : Option Nat
  sent_channels : List String
  validation_warnings : List String
deriving DecidableEq

/-- The claim step of `tick` (src/src/db.js:813-820), and of the
single-tick endpoint (src/api/run-consumer.js:42-45):
`findOneAndUpdate({_id, status: 'pending'}, {$set: {status: 'sending',
claimed_at: now}}, {returnDocument: 'after'})` on one document.
Returns the updated store document together with what the caller
receives (`claimRes.value`): the post-update document on success,
nothing when the filter no longer matches. -/
def claimSignal (s : Sig) (now : Int) : Sig × Option Sig :=
  if s.status = "pending" then
    let w := { s with status := "sending", claimed_at := some now }
    (w, some w)
  else (s, none)

/-- A sequence of claim attempts on one document, one per timestamp,
each seeing the store state left by the previous one (the store applies
them atomically, in some serial order).  Returns the final document and
how many attempts received a post-update document. -/
def claimSeq : Sig → List Int → Sig × Nat
  | s, [] => (s, 0)
  | s, t :: ts =>
    let r := claimSignal s t
    let rest := claimSeq r.1 ts
    (rest.1, (if r.2.isSome then 1 else 0) + rest.2)

/-- A concrete pending signal used by witnesses. -/
def sigEx : Sig :=
  { id := 1, status := "pending", is_premium := some true,
    entry_price := some "100", entry := none,
    signal_type := some "LONG", market_type := some "crypto",
    pair := some "BTC/USDT",
    stop_loss := some "90", stop := none,
    take_profit := some "120", take := none,
    confidence_level := none, risk_reward := none, reasoning := none,
    generated_at := some 0, expires_at := 1000,
    claimed_at := none, sent_at := none, deferred_at := none,
    last_telegram_message_id := none, sent_channels := [],
    validation_warnings := [] }

/-! ## Cadence ledger (db.js:760-767, 830-842) -/

/-- Publish window for the premium tier: 24 hours (db.js:837). -/
def premiumWindowMs : Int := 24 * 3600 * 1000

/-- Publish window for the free tier: 7 days (db.js:840). -/
def freeWindowMs : Int := 7 * 24 * 3600 * 1000

/-- `NEWS_PUBLISH_INTERVAL_MINUTES` environment default, 60 minutes
(db.js:760). -/
def newsIntervalMinDefault : Int := 60

/-- News publish window in milliseconds (db.js:766). -/
def newsWindowMs : Int := newsIntervalMinDefault * 60 * 1000

/-- Window per ledger category. -/
def windowMs (typ : String) : Int :=
  if typ = "premium" then premiumWindowMs
  else if typ = "news" then newsWindowMs
  else freeWindowMs

/-- The publish-window check of `tick` (db.js:831-842): allowed when the
ledger has no `last_published` entry for the tier, otherwise when
`now - lastDate` has reached the tier's window. -/
def tickAllowed (typ : String) (last : Option Int) (now : Int) : Bool :=
  match last with
  | none => true
  | some lastDate =>
    if typ = "premium" then decide (now - lastDate ≥ 24 * 3600 * 1000)
    else decide (now - lastDate ≥ 7 * 24 * 3600 * 1000)

/-- The news publish-window check of `publishNewsIfReady`
(db.js:762-767), at the default 60-minute interval. -/
def newsAllowed (last : Option Int) (now : Int) : Bool :=
  match last with
  | none => true
  | some lastDate => decide (now - lastDate ≥ newsIntervalMinDefault * 60 * 1000)

/-- One publish attempt against a ledger entry: evaluate the window
check; on success the send goes out and `setPublishLog`
(db.js:639-641, 697) stores `now` as `last_published`.  Returns the new
ledger entry and whether a send happened. -/
def publishAttempt (check : Option Int → Int → Bool) (led : Option Int) (now : Int) :
    Option Int × Bool :=
  if check led now then (some now, true) else (led, false)

/-! ## Store update operations (db.js:684-692, 780-798, 844-853) -/

/-- A news document of the `news_updates` collection; `status = none`
models a document with no status field (the code treats it like
pending, db.js:774, 781). -/
structure News where
  id : Nat
  status : Option String
  title : Option String
  summary : Option String
  source : Option String
  provider : Option String
  url : Option String
  created_at : Option Int
  expires_at : Int
  claimed_at : Option Int
  published_at : Option Int
  failed_at : Option Int
deriving DecidableEq

/-- Filter `status: {$in: ['pending', null]}` (db.js:774, 781). -/
def newsClaimable (st : Option String) : Bool :=
  st = some "pending" || st = none

/-- The news claim (db.js:780-785): `findOneAndUpdate` setting
`status = sending`, `claimed_at = now` iff the status is pending or
absent, returning the post-update document only then. -/
def claimNews (n : News) (now : Int) : News × Option News :=
  if newsClaimable n.status then
    let w := { n with status := some "sending", claimed_at := some now }
    (w, some w)
  else (n, none)

/-- The news publish commit (db.js:790): unconditional
`updateOne({_id}, {$set: {status: 'published', published_at: now}})`;
the loop runs it only on the document it just claimed. -/
def publishNewsCommit (n : News) (now : Int) : News :=
  { n with status := some "published", published_at := some now }

/-- The news send-failure revert (db.js:796): conditional
`updateOne({_id, status: 'sending'}, {$set: {status: 'pending',
failed_at: now}})`. -/
def revertNews (n : News) (now : Int) : News :=
  if n.status = some "sending" then
    { n with status := some "pending", failed_at := some now }
  else n

/-- The throttle deferral (db.js:848): conditional
`updateOne({_id, status: 'sending'}, {$set: {status: 'deferred',
deferred_at: now}})`. -/
def deferSignal (s : Sig) (now : Int) : Sig :=
  if s.status = "sending" then
    { s with status := "deferred", deferred_at := some now }
  else s

/-- Mongo `$addToSet` on an array field. -/
def addToSet (xs : List String) (x : String) : List String :=
  if x ∈ xs then xs else xs ++ [x]

/-- The post-send status commit (db.js:685-692): `updateOne` on the
document setting `status = active`, `sent_at`,
`last_telegram_message_id` and `$addToSet`-ing the destination into
`sent_channels`.  The filter is on the id alone; the consumer invokes
it only on the document it holds in `sending` (db.js:816-855). -/
def commitActive (s : Sig) (now : Int) (msgId : Nat) (chatId : String) : Sig :=
  { s with status := "active", sent_at := some now,
           last_telegram_message_id := some msgId,
           sent_channels := addToSet s.sent_channels chatId }

/-! ## Status machine (C2) -/

/-- One consumer-loop store operation on a signal document.  The
`commit` constructor carries the flow guard: `sendSignalToPremium` is
called only on a document the loop has just claimed into `sending`
(db.js:816-855), the update itself filtering on the id alone. -/
inductive SigStep : Sig → Sig → Prop
  | claim (s : Sig) (now : Int) : SigStep s (claimSignal s now).1
  | defer (s : Sig) (now : Int) : SigStep s (deferSignal s now)
  | commit (s : Sig) (now : Int) (msgId : Nat) (chatId : String)
      (h : s.status = "sending") : SigStep s (commitActive s now msgId chatId)

/-- One consumer-loop store operation on a news document.  `publish`
carries the flow guard: the commit runs only after the claim returned
the document in `sending` (db.js:785-790). -/
inductive NewsStep : News → News → Prop
  | claim (n : News) (now : Int) : NewsStep n (claimNews n now).1
  | publish (n : News) (now : Int) (h : n.status = some "sending") :
      NewsStep n (publishNewsCommit n now)
  | revert (n : News) (now : Int) : NewsStep n (revertNews n now)

/-- The status moves allowed by the claim C2 as stated:
pending→sending, sending→active, sending→deferred. -/
def claimedMove (a b : String) : Bool :=
  (a = "pending" && b = "sending") || (a = "sending" && b = "active") ||
  (a = "sending" && b = "deferred")

/-- The status moves the code actually performs: additionally
sending→published (news commit) and sending→pending (news
transport-failure revert, db.js:796). -/
def amendedMove (a b : String) : Bool :=
  claimedMove a b || (a = "sending" && b = "published") ||
  (a = "sending" && b = "pending")

/-- How the code reads a news status: an absent status is treated as
pending (db.js:774, 781). -/
def newsStatusView (st : Option String) : String :=
  st.getD "pending"

/-- A concrete claimed news item used in the C2 counterexample. -/
def newsSendingEx : News :=
  { id := 2, status := some "sending", title := some "Hello",
    summary := none, source := none, provider := none, url := none,
    created_at := some 0, expires_at := 1000, claimed_at := some 1,
    published_at := none, failed_at := none }

/-! ## Message formatter (db.js:554-621, run-consumer.js:78-91) -/

/-- The Markdown characters matched by the `escapeMarkdown` regex
(db.js:556); the brace characters are written by code point. -/
def mdSpecial (c : Char) : Bool :=
  c = '_' || c = '*' || c = '[' || c = ']' || c = '(' || c = ')' || c = '~' ||
  c = Char.ofNat 96 || c = '>' || c = '#' || c = '+' || c = '-' || c = '=' ||
  c = '|' || c = Char.ofNat 123 || c = Char.ofNat 125 || c = '.' || c = '!'

/-- Character-level body of `escapeMarkdown`: prefix every special
character with a backslash. -/
def escapeChars : List Char → List Char
  | [] => []
  | c :: rest =>
    if mdSpecial c then '\\' :: c :: escapeChars rest
    else c :: escapeChars rest

/-- `escapeMarkdown` (db.js:554-557). -/
def escapeMarkdown (s : String) : String :=
  ⟨escapeChars s.data⟩

/-- JS `x || d` on a possibly-absent string: the value when present and
non-empty, otherwise the default. -/
def orDefault (v : Option String) (d : String) : String :=
  match v with
  | none => d
  | some s => if s = "" then d else s

/-- JS `a || b || d`. -/
def firstTruthy (a b : Option String) (d : String) : String :=
  orDefault a (orDefault b d)

/-- Abstraction of JS `new Date(t).toLocaleString()`: some fixed
rendering of the timestamp; its exact text is irrelevant to the
claims. -/
def localeString (t : Int) : String := toString t

/-- JS `String.prototype.toUpperCase` on the character list. -/
def jsToUpper (s : String) : String := ⟨s.data.map Char.toUpper⟩

/-- The `direction` expression of `formatSignalMessage` (db.js:560). -/
def signalDirection (sig : Sig) : String :=
  if sig.signal_type = some "LONG" then "BUY (LONG)"
  else if sig.signal_type = some "SHORT" then "SELL (SHORT)"
  else orDefault sig.signal_type "HOLD"

/-- The lines pushed by `formatSignalMessage` (db.js:559-597).  The
`expires_at` line is always rendered because the field, a BSON date, is
always truthy there. -/
def signalLines (sig : Sig) : List String :=
  ["🔔 *NEW " ++ escapeMarkdown (jsToUpper (sig.market_type.getD "")) ++ " SIGNAL*",
   "*Pair:* " ++ escapeMarkdown (orDefault sig.pair "N/A"),
   "*Direction:* " ++ escapeMarkdown (signalDirection sig),
   "*Entry:* " ++ escapeMarkdown (firstTruthy sig.entry_price sig.entry "N/A"),
   "*Stop Loss:* " ++ escapeMarkdown (firstTruthy sig.stop_loss sig.stop "N/A"),
   "*Take Profit:* " ++ escapeMarkdown (firstTruthy sig.take_profit sig.take "N/A")] ++
  (match sig.confidence_level with
   | none => []
   | some c => ["*Confidence:* " ++ escapeMarkdown c ++ "%"]) ++
  (match sig.risk_reward with
   | none => []
   | some r => ["*Risk–Reward:* " ++ escapeMarkdown r ++ " : 1"]) ++
  (if orDefault sig.reasoning "" = "" then []
   else ["", "*Reasoning:* " ++ escapeMarkdown (sig.reasoning.getD "")]) ++
  (match sig.generated_at with
   | none => []
   | some g => ["", "*Generated:* " ++ escapeMarkdown (localeString g)]) ++
  ["*Expires:* " ++ escapeMarkdown (localeString sig.expires_at)] ++
  (if sig.validation_warnings = [] then []
   else "" :: "*Warnings:*" ::
     sig.validation_warnings.map (fun w => "• " ++ escapeMarkdown w)) ++
  ["", "_Not financial advice. Trade at your own risk._"]

/-- `formatSignalMessage` (db.js:559-599). -/
def formatSignalMessage (sig : Sig) : String :=
  String.intercalate "\n" (signalLines sig)

/-- The lines pushed by `formatNewsMessage` (db.js:601-621); the title
line's missing closing asterisk is as in the source. -/
def newsLines (n : News) : List String :=
  ["📰 *" ++ escapeMarkdown (orDefault n.title "News Update")] ++
  (if orDefault n.summary "" = "" then []
   else [escapeMarkdown (n.summary.getD "")]) ++
  (if orDefault n.source (orDefault n.provider "") = "" then []
   else ["", "*Source:* " ++ escapeMarkdown (firstTruthy n.source n.provider "")]) ++
  (if orDefault n.url "" = "" then []
   else ["[Read more](" ++ escapeMarkdown (n.url.getD "") ++ ")"]) ++
  (match n.created_at with
   | none => []
   | some c => ["", "_" ++ escapeMarkdown (localeString c) ++ "_"])

/-- `formatNewsMessage` (db.js:601-621). -/
def formatNewsMessage (n : News) : String :=
  String.intercalate "\n" (newsLines n)

/-- The raw free-text pieces `formatSignalMessage` interpolates, in
order of appearance (db.js:564-593). -/
def signalFreeRaw (sig : Sig) : List String :=
  [jsToUpper (sig.market_type.getD ""),
   orDefault sig.pair "N/A",
   signalDirection sig,
   firstTruthy sig.entry_price sig.entry "N/A",
   firstTruthy sig.stop_loss sig.stop "N/A",
   firstTruthy sig.take_profit sig.take "N/A"] ++
  sig.confidence_level.toList ++
  sig.risk_reward.toList ++
  (if orDefault sig.reasoning "" = "" then [] else [sig.reasoning.getD ""]) ++
  (sig.generated_at.map localeString).toList ++
  [localeString sig.expires_at] ++
  sig.validation_warnings

/-- The free-text pieces as `formatSignalMessage` includes them: each
raw piece passed through `escapeMarkdown`. -/
def signalFreeText (sig : Sig) : List String :=
  (signalFreeRaw sig).map escapeMarkdown

/-- The raw free-text pieces `formatNewsMessage` interpolates
(db.js:604-617). -/
def newsFreeRaw (n : News) : List String :=
  [orDefault n.title "News Update"] ++
  (if orDefault n.summary "" = "" then [] else [n.summary.getD ""]) ++
  (if orDefault n.source (orDefault n.provider "") = "" then []
   else [firstTruthy n.source n.provider ""]) ++
  (if orDefault n.url "" = "" then [] else [n.url.getD ""]) ++
  (n.created_at.map localeString).toList

/-- The free-text pieces as `formatNewsMessage` includes them. -/
def newsFreeText (n : News) : List String :=
  (newsFreeRaw n).map escapeMarkdown

/-- Every `mdSpecial` character is immediately preceded by a backslash;
`prev` is the character before the current position. -/
def specialsSlashed (prev : Char) : List Char → Bool
  | [] => true
  | c :: rest => (!mdSpecial c || prev == '\\') && specialsSlashed c rest

/-- The text has every Markdown special character backslash-escaped
(the initial `prev` is any non-backslash character). -/
def escapedText (s : String) : Bool :=
  specialsSlashed 'A' s.data

/-- The `market` expression of the single-tick endpoint
(run-consumer.js:79). -/
def runConsumerMarket (sig : Sig) : String :=
  let m := jsToUpper (sig.market_type.getD "")
  if m = "" then "MARKET" else m

/-- The message lines built inline by the single-tick endpoint
(run-consumer.js:78-89): the field values are interpolated directly,
with no `escapeMarkdown`. -/
def runConsumerLines (sig : Sig) : List String :=
  ["🔔 *NEW " ++ runConsumerMarket sig ++ " SIGNAL*",
   "*Pair:* " ++ orDefault sig.pair "N/A",
   "*Direction:* " ++ orDefault sig.signal_type "N/A",
   "*Entry:* " ++ firstTruthy sig.entry_price sig.entry "N/A",
   "*Stop Loss:* " ++ firstTruthy sig.stop_loss sig.stop "N/A",
   "*Take Profit:* " ++ firstTruthy sig.take_profit sig.take "N/A"] ++
  (match sig.confidence_level with
   | none => []
   | some c => ["*Confidence:* " ++ c ++ "%"]) ++
  (match sig.risk_reward with
   | none => []
   | some r => ["*Risk–Reward:* " ++ r ++ " : 1"]) ++
  (if orDefault sig.reasoning "" = "" then []
   else ["", "*Reasoning:* " ++ sig.reasoning.getD ""]) ++
  ["", "_Not financial advice. Trade at your own risk._"]

/-- The outbound message text of the single-tick endpoint
(run-consumer.js:91). -/
def runConsumerText (sig : Sig) : String :=
  String.intercalate "\n" (runConsumerLines sig)

/-- A signal whose pair contains a Markdown special character, for the
C8 counterexample. -/
def sigUnderscoreEx : Sig :=
  { sigEx with pair := some "A_B" }

/-! ## Post-send commit with bounded retry (db.js:643-718) -/

/-- Body of `updateSignalDocumentWithRetry` (db.js:643-658).
`fails k` tells whether the k-th `updateOne` call (0-based) throws.
Arguments: tries left (`maxRetries - attempt`), current attempt index,
current backoff.  Returns whether an update call succeeded and the
backoff sleeps performed; on `false` the JS function rethrows the last
error. -/
def updateWithRetry (fails : Nat → Bool) : Nat → Nat → Int → Bool × List Int
  | 0, _, _ => (false, [])
  | remaining + 1, attempt, backoff =>
    if fails attempt then
      if remaining = 0 then (false, [])
      else
        let r := updateWithRetry fails remaining (attempt + 1) (backoff * 2)
        (r.1, backoff :: r.2)
    else (true, [])

/-- `updateSignalDocumentWithRetry(col, filter, update, maxRetries)`
starting at attempt 0 and a 1000 ms backoff (db.js:644-645). -/
def updateSignalDocumentWithRetry (fails : Nat → Bool) (maxRetries : Nat) :
    Bool × List Int :=
  updateWithRetry fails maxRetries 0 1000

/-- Observable events of processing one claimed item, in order. -/
inductive Ev where
  | transportSend (chatId : String) (text : String)
  | retrySleep (ms : Int)
  | statusCommit
  | ledgerWrite (typ : String)
  | failureLog
  | cadenceRead (typ : String)
  | deferWrite
  | logWarn
deriving DecidableEq

/-- Whether an event is a transport send. -/
def isSendEv : Ev → Bool
  | Ev.transportSend _ _ => true
  | _ => false

/-- The delivery-failure record written through
`db.logSignalDeliveryFailure` (db.js:707-713): item id, transport
message id and destination channel (error text and snapshot omitted). -/
structure FailureRec where
  signalId : Nat
  telegramMessageId : Nat
  channelId : String
deriving DecidableEq

/-- The tier expression `sig.is_premium ? 'premium' : 'free'`
(db.js:696, 830; run-consumer.js:55): only a literal `true` is
truthy. -/
def signalTier (sig : Sig) : String :=
  if sig.is_premium = some true then "premium" else "free"

/-- Result of processing one claimed signal: final document, the
tier's publish-log entry, the event trace, any delivery-failure record,
and whether the call threw to its caller. -/
structure SendOutcome where
  sig : Sig
  ledger : Option Int
  events : List Ev
  failureRecord : Option FailureRec
  threw : Bool
deriving DecidableEq

/-- `sendSignalToPremium` (db.js:663-718) in the case the transport
send succeeds and returns `msgId`.  `premiumChat`/`freeChat` are the
resolved channel ids (db.js:665-666, `freeChat` already defaulted to
the premium one); `updFails` drives the status-commit retries;
`ledgerFails` makes the `setPublishLog` call throw, which is caught and
only logged (db.js:698-700); a status-commit failure after all retries
is caught, recorded via `logSignalDeliveryFailure` and not rethrown
(db.js:701-717).  The call throws only when no channel id is
configured (db.js:668). -/
def sendSignalToPremium (sig : Sig) (premiumChat freeChat : Option String)
    (msgId : Nat) (now : Int) (updFails : Nat → Bool) (ledgerFails : Bool)
    (ledger : Option Int) : SendOutcome :=
  match if sig.is_premium = some true then premiumChat else freeChat with
  | none => { sig := sig, ledger := ledger, events := [], failureRecord := none,
              threw := true }
  | some chatId =>
    let text := formatSignalMessage sig
    let r := updateSignalDocumentWithRetry updFails 3
    let sleeps := r.2.map Ev.retrySleep
    if r.1 then
      let sig2 := commitActive sig now msgId chatId
      if ledgerFails then
        { sig := sig2, ledger := ledger,
          events := Ev.transportSend chatId text :: sleeps ++ [Ev.statusCommit],
          failureRecord := none, threw := false }
      else
        { sig := sig2, ledger := some now,
          events := Ev.transportSend chatId text ::
            sleeps ++ [Ev.statusCommit, Ev.ledgerWrite (signalTier sig)],
          failureRecord := none, threw := false }
    else
      { sig := sig, ledger := ledger,
        events := Ev.transportSend chatId text :: sleeps ++ [Ev.failureLog],
        failureRecord := some { signalId := sig.id, telegramMessageId := msgId,
                                channelId := chatId },
        threw := false }

/-- JS `!sig.entry_price && !sig.entry` (db.js:824): both entry fields
absent or empty. -/
def missingEntry (sig : Sig) : Bool :=
  decide (orDefault sig.entry_price "" = "") && decide (orDefault sig.entry "" = "")

/-- The `tick` loop body for one claimed signal (db.js:821-859):
validate the payload, read the tier's publish window, defer when the
window has not elapsed, otherwise send and commit.  `sig` is the
post-claim document. -/
def processClaimedSignal (sig : Sig) (premiumChat freeChat : Option String)
    (msgId : Nat) (now : Int) (updFails : Nat → Bool) (ledgerFails : Bool)
    (ledger : Option Int) : SendOutcome :=
  if missingEntry sig then
    { sig := sig, ledger := ledger, events := [Ev.logWarn], failureRecord := none,
      threw := false }
  else
    let typ := signalTier sig
    if tickAllowed typ ledger now then
      let out := sendSignalToPremium sig premiumChat freeChat msgId now updFails
        ledgerFails ledger
      { out with events := Ev.cadenceRead typ :: out.events }
    else
      { sig := deferSignal sig now, ledger := ledger,
        events := [Ev.cadenceRead typ, Ev.deferWrite], failureRecord := none,
        threw := false }

/-! ## Candidate fetch (db.js:623-632, 807; run-consumer.js:36) -/

/-- The `fetchPendingSignals` filter: `status = 'pending'`,
`is_premium: {$ne: false}` (also matched by an absent field) and
`expires_at` strictly in the future. -/
def eligibleSig (now : Int) (s : Sig) : Bool :=
  decide (s.status = "pending") && decide (s.is_premium ≠ some false) &&
  decide (now < s.expires_at)

/-- Sort key for `sort({generated_at: 1})`: an absent date sorts
first. -/
def genKey (s : Sig) : WithBot Int :=
  match s.generated_at with
  | none => ⊥
  | some t => (t : WithBot Int)

/-- The fetch order: ascending `generated_at`. -/
def genLE (a b : Sig) : Prop := genKey a ≤ genKey b

instance : DecidableRel genLE :=
  fun a b => inferInstanceAs (Decidable (genKey a ≤ genKey b))

instance : IsTotal Sig genLE :=
  ⟨fun a b => le_total (genKey a) (genKey b)⟩

instance : IsTrans Sig genLE :=
  ⟨fun _ _ _ hab hbc => le_trans hab hbc⟩

/-- `fetchPendingSignals` (db.js:623-632): filter, ascending sort on
`generated_at`, then `limit`. -/
def fetchPendingSignals (store : List Sig) (now : Int) (limit : Nat) : List Sig :=
  (List.insertionSort genLE (store.filter fun s => eligibleSig now s)).take limit

/-- The fetch as `tick` calls it: `{limit: 10}` (db.js:807). -/
def tickFetch (store : List Sig) (now : Int) : List Sig :=
  fetchPendingSignals store now 10

/-- The fetch of the single-tick endpoint: `.limit(20)`
(run-consumer.js:36). -/
def runConsumerFetch (store : List Sig) (now : Int) : List Sig :=
  fetchPendingSignals store now 20

/-- The news candidate filter (db.js:774): status pending or absent,
not expired. -/
def eligibleNews (now : Int) (n : News) : Bool :=
  newsClaimable n.status && decide (now < n.expires_at)

/-- Sort key for the news `sort: {created_at: -1}`. -/
def newsKey (n : News) : WithBot Int :=
  match n.created_at with
  | none => ⊥
  | some t => (t : WithBot Int)

/-- Descending `created_at` order of the news `findOne`. -/
def newsGE (a b : News) : Prop := newsKey b ≤ newsKey a

instance : DecidableRel newsGE :=
  fun a b => inferInstanceAs (Decidable (newsKey b ≤ newsKey a))

/-- The news `findOne` of `publishNewsIfReady` (db.js:774): at most one
candidate, the newest eligible one. -/
def findNewsCandidate (store : List News) (now : Int) : Option News :=
  (List.insertionSort newsGE (store.filter fun n => eligibleNews now n)).head?

/-! ## News publish flow (db.js:787-801) -/

/-- Result of the post-claim part of `publishNewsIfReady`. -/
structure NewsOutcome where
  news : News
  ledger : Option Int
  events : List Ev
  threw : Bool
deriving DecidableEq

/-- The post-claim send/commit of `publishNewsIfReady` (db.js:787-798)
together with its outer catch (db.js:799-801): on a successful send,
mark published and update the news publish log; on a send failure,
conditionally revert the status to pending with `failed_at`, and the
rethrown error is caught and only logged, so the tick continues. -/
def publishClaimedNews (n : News) (chatId : String) (sendOk : Bool) (now : Int)
    (ledger : Option Int) : NewsOutcome :=
  if sendOk then
    { news := publishNewsCommit n now, ledger := some now,
      events := [Ev.transportSend chatId (formatNewsMessage n), Ev.statusCommit,
                 Ev.ledgerWrite "news"],
      threw := false }
  else
    { news := revertNews n now, ledger := ledger, events := [Ev.logWarn],
      threw := false }

/-- A concrete claimed signal (post-claim state), used by witnesses. -/
def sigSendingEx : Sig :=
  { sigEx with status := "sending", claimed_at := some 3 }

/-- A claimed signal missing both entry fields, for the C7 witness. -/
def sigNoEntryEx : Sig :=
  { sigSendingEx with entry_price := none, entry := none }

/-- A signal with `is_premium` absent, for the C9 counterexample. -/
def sigNoTierEx : Sig :=
  { sigEx with is_premium := none }

/-- Eleven eligible pending signals, for the C6 counterexample. -/
def store11 : List Sig :=
  (List.range 11).map fun i => { sigEx with id := i, generated_at := some (i : Int) }

/-! ## Theorems -/

theorem claimSignal_not_pending (s : Sig) (now : Int) (h : s.status ≠ "pending") :
    claimSignal s now = (s, none) := by
  simp [claimSignal, h]

theorem claimSeq_not_pending (s : Sig) (ts : List Int) (h : s.status ≠ "pending") :
    claimSeq s ts = (s, 0) := by
  induction ts with
  | nil => rfl
  | cons t ts ih => simp [claimSeq, claimSignal_not_pending s t h, ih]

/-- C1: a claim attempt is a single conditional update setting
`status = sending` and `claimed_at` iff the status is still `pending`,
returning the post-update document only then; on a non-pending document
it changes nothing and returns nothing; and any non-empty serialised
sequence of claim attempts on one pending document yields exactly one
success. -/
theorem claim_protocol_exclusive (s : Sig) (now : Int) (ts : List Int)
    (hp : s.status = "pending") (hne : ts ≠ []) :
    (claimSignal s now =
      ({ s with status := "sending", claimed_at := some now },
       some { s with status := "sending", claimed_at := some now })) ∧
    (∀ s2 : Sig, s2.status ≠ "pending" → claimSignal s2 now = (s2, none)) ∧
    (claimSeq s ts).2 = 1 := by
  refine ⟨by simp [claimSignal, hp], fun s2 h => claimSignal_not_pending s2 now h, ?_⟩
  obtain ⟨t, ts', rfl⟩ := List.exists_cons_of_ne_nil hne
  have hw : ({ s with status := "sending", claimed_at := some t } : Sig).status ≠ "pending" := by
    simp
  simp [claimSeq, claimSignal, hp, claimSeq_not_pending _ _ hw]

/-- Witness for C1 at a concrete pending signal and three attempts. -/
theorem claim_protocol_exclusive_witness :
    (claimSignal sigEx 5 =
      ({ sigEx with status := "sending", claimed_at := some 5 },
       some { sigEx with status := "sending", claimed_at := some 5 })) ∧
    (∀ s2 : Sig, s2.status ≠ "pending" → claimSignal s2 5 = (s2, none)) ∧
    (claimSeq sigEx [5, 6, 7]).2 = 1 :=
  claim_protocol_exclusive sigEx 5 [5, 6, 7] rfl (by simp)

/-- C3: the cadence check is true iff there is no ledger entry or
`now - last_published` has reached the category's fixed window
(premium 24h, free 7d, news 60m); with `last_published = t` no publish
succeeds before `t + window`; and two attempts inside one window yield
at most one send. -/
theorem cadence_throttle (typ : String) (last : Option Int) (now t t1 t2 : Int)
    (htyp : typ = "premium" ∨ typ = "free") (_h12 : t1 ≤ t2)
    (hwin : t2 < t1 + windowMs typ) :
    (tickAllowed typ last now = true ↔
      last = none ∨ ∃ u, last = some u ∧ now - u ≥ windowMs typ) ∧
    (newsAllowed last now = true ↔
      last = none ∨ ∃ u, last = some u ∧ now - u ≥ newsWindowMs) ∧
    (windowMs "premium" = 24 * 3600 * 1000 ∧
     windowMs "free" = 7 * 24 * 3600 * 1000 ∧
     windowMs "news" = 60 * 60 * 1000) ∧
    (now < t + windowMs typ →
      (publishAttempt (tickAllowed typ) (some t) now).2 = false) ∧
    ((if (publishAttempt (tickAllowed typ) last t1).2 then 1 else 0) +
     (if (publishAttempt (tickAllowed typ)
            (publishAttempt (tickAllowed typ) last t1).1 t2).2 then 1 else 0) ≤ 1) := by
  have hmain : ∀ l : Option Int, ∀ m : Int,
      tickAllowed typ l m = true ↔ l = none ∨ ∃ u, l = some u ∧ m - u ≥ windowMs typ := by
    intro l m
    rcases htyp with h | h <;> subst h <;>
      cases l <;> simp [tickAllowed, windowMs, premiumWindowMs, freeWindowMs]
  refine ⟨hmain last now, ?_, ?_, ?_, ?_⟩
  · cases last <;>
      simp [newsAllowed, newsWindowMs, newsIntervalMinDefault]
  · refine ⟨?_, ?_, ?_⟩ <;>
      simp [windowMs, premiumWindowMs, freeWindowMs, newsWindowMs, newsIntervalMinDefault]
  · intro hlt
    have : ¬ tickAllowed typ (some t) now = true := by
      rw [hmain (some t) now]
      simp only [Option.some.injEq]
      push_neg
      refine ⟨by simp, fun u hu => ?_⟩
      subst hu
      omega
    simp [publishAttempt, Bool.not_eq_true] at this ⊢
    simp [this]
  · by_cases h1 : tickAllowed typ last t1 = true
    · have h2 : ¬ tickAllowed typ (some t1) t2 = true := by
        rw [hmain (some t1) t2]
        simp only [Option.some.injEq]
        push_neg
        refine ⟨by simp, fun u hu => ?_⟩
        subst hu
        omega
      simp [publishAttempt, h1, Bool.not_eq_true] at h2 ⊢
      simp [h2]
    · by_cases h2 : tickAllowed typ last t2 = true <;>
        simp [publishAttempt, h1, h2]

/-- Witness for C3 on the premium window: `last_published = 0`,
attempts at 5 ms and 10 ms. -/
theorem cadence_throttle_witness :
    (tickAllowed "premium" (some 0) 5 = true ↔
      (some 0 : Option Int) = none ∨ ∃ u, (some 0 : Option Int) = some u ∧ 5 - u ≥ windowMs "premium") ∧
    (newsAllowed (some 0) 5 = true ↔
      (some 0 : Option Int) = none ∨ ∃ u, (some 0 : Option Int) = some u ∧ 5 - u ≥ newsWindowMs) ∧
    (windowMs "premium" = 24 * 3600 * 1000 ∧
     windowMs "free" = 7 * 24 * 3600 * 1000 ∧
     windowMs "news" = 60 * 60 * 1000) ∧
    (5 < 0 + windowMs "premium" →
      (publishAttempt (tickAllowed "premium") (some 0) 5).2 = false) ∧
    ((if (publishAttempt (tickAllowed "premium") (some 0) 5).2 then 1 else 0) +
     (if (publishAttempt (tickAllowed "premium")
            (publishAttempt (tickAllowed "premium") (some 0) 5).1 10).2 then 1 else 0) ≤ 1) :=
  cadence_throttle "premium" (some 0) 5 0 5 10 (Or.inl rfl) (by norm_num)
    (by norm_num [windowMs, premiumWindowMs])

/-- C2 counterexample: the news transport-failure revert is a
consumer-loop operation taking a claimed item from `sending` back to
`pending`, a move outside the set the claim allows. -/
theorem status_machine_counterexample :
    NewsStep newsSendingEx (revertNews newsSendingEx 9) ∧
    newsSendingEx.status = some "sending" ∧
    (revertNews newsSendingEx 9).status = some "pending" ∧
    claimedMove "sending" "pending" = false :=
  ⟨NewsStep.revert newsSendingEx 9, rfl, by simp [revertNews, newsSendingEx], rfl⟩

/-- C2 (amended): consumer-loop operations move a status only along
pending→sending (claim; an absent news status reads as pending),
sending→active (signal commit), sending→published (news commit),
sending→deferred (throttle), or sending→pending (news
transport-failure revert), or leave it unchanged; and an `active` or
`published` status never changes again — on such documents the
conditional updates are no-ops, and the commits keep the status and
only `$addToSet`-append `sent_channels`. -/
theorem status_machine (s s' : Sig) (n n' : News) (hs : SigStep s s')
    (hn : NewsStep n n') :
    (s.status = s'.status ∨ amendedMove s.status s'.status = true) ∧
    (newsStatusView n.status = newsStatusView n'.status ∨
      amendedMove (newsStatusView n.status) (newsStatusView n'.status) = true) ∧
    (∀ a : Sig, ∀ now : Int, a.status = "active" →
      claimSignal a now = (a, none) ∧ deferSignal a now = a) ∧
    (∀ a : Sig, ∀ now : Int, ∀ msgId : Nat, ∀ chat : String, a.status = "active" →
      (commitActive a now msgId chat).status = "active" ∧
      a.sent_channels <+: (commitActive a now msgId chat).sent_channels) ∧
    (∀ m : News, ∀ now : Int, m.status = some "published" →
      claimNews m now = (m, none) ∧ revertNews m now = m ∧
      (publishNewsCommit m now).status = some "published") := by
  refine ⟨?_, ?_, ?_, ?_, ?_⟩
  · cases hs with
    | claim now =>
      by_cases h : s.status = "pending"
      · right
        simp [claimSignal, h, amendedMove, claimedMove]
      · left
        simp [claimSignal, h]
    | defer now =>
      by_cases h : s.status = "sending"
      · right
        simp [deferSignal, h, amendedMove, claimedMove]
      · left
        simp [deferSignal, h]
    | commit now msgId chatId h =>
      right
      simp [commitActive, h, amendedMove, claimedMove]
  · cases hn with
    | claim now =>
      by_cases h : newsClaimable n.status = true
      · right
        have hview : newsStatusView n.status = "pending" := by
          rcases hst : n.status with _ | st
          · rfl
          · rw [hst] at h
            simp only [newsClaimable, Bool.or_eq_true, decide_eq_true_eq,
              Option.some.injEq, reduceCtorEq, or_false] at h
            rw [h]
            rfl
        have h1 : (claimNews n now).1.status = some "sending" := by
          simp [claimNews, h]
        rw [h1, hview]
        rfl
      · left
        simp [claimNews, h]
    | publish now h =>
      right
      simp [publishNewsCommit, newsStatusView, h, amendedMove, claimedMove]
    | revert now =>
      by_cases h : n.status = some "sending"
      · right
        simp [revertNews, h, newsStatusView, amendedMove, claimedMove]
      · left
        simp [revertNews, h]
  · intro a now ha
    constructor
    · simp [claimSignal, ha]
    · simp [deferSignal, ha]
  · intro a now msgId chat _
    refine ⟨rfl, ?_⟩
    simp only [commitActive, addToSet]
    split
    · exact List.prefix_rfl
    · exact List.prefix_append _ _
  · intro m now hm
    refine ⟨?_, ?_, rfl⟩
    · simp [claimNews, newsClaimable, hm]
    · simp [revertNews, hm]

/-- Witness for C2 (amended) at a concrete claim step and a concrete
news claim step. -/
theorem status_machine_witness :
    (sigEx.status = (claimSignal sigEx 5).1.status ∨
      amendedMove sigEx.status (claimSignal sigEx 5).1.status = true) ∧
    ((commitActive { sigEx with status := "active" } 7 42 "c").status = "active") :=
  ⟨(status_machine sigEx (claimSignal sigEx 5).1 newsSendingEx
      (claimNews newsSendingEx 5).1 (SigStep.claim sigEx 5)
      (NewsStep.claim newsSendingEx 5)).1,
   ((status_machine sigEx (claimSignal sigEx 5).1 newsSendingEx
      (claimNews newsSendingEx 5).1 (SigStep.claim sigEx 5)
      (NewsStep.claim newsSendingEx 5)).2.2.2.1
      { sigEx with status := "active" } 7 42 "c" rfl).1⟩

theorem specialsSlashed_escapeChars (l : List Char) (prev : Char) :
    specialsSlashed prev (escapeChars l) = true := by
  induction l generalizing prev with
  | nil => rfl
  | cons c rest ih =>
    by_cases h : mdSpecial c = true
    · simp only [escapeChars, h, if_true, specialsSlashed]
      have hb : mdSpecial '\\' = false := by decide
      simp [hb, h, ih]
    · simp only [escapeChars, h, if_false, Bool.false_eq_true, specialsSlashed]
      simp [h, ih]

theorem escapedText_escapeMarkdown (s : String) :
    escapedText (escapeMarkdown s) = true :=
  specialsSlashed_escapeChars s.data 'A'

/-- C8 counterexample: with pair `A_B`, the single-tick endpoint's
outbound text (run-consumer.js:78-91) contains the free text verbatim
and not its escaped form, while the consumer module's formatter escapes
it — so not every code path escapes interpolated free text. -/
theorem markdown_escaping_counterexample :
    "A_B".data <:+: (runConsumerText sigUnderscoreEx).data ∧
    ¬ "A\\_B".data <:+: (runConsumerText sigUnderscoreEx).data ∧
    escapeMarkdown "A_B" = "A\\_B" ∧
    "A\\_B".data <:+: (formatSignalMessage sigUnderscoreEx).data ∧
    escapedText "A_B" = false := by
  refine ⟨?_, ?_, by decide, ?_, by decide⟩ <;> decide

/-- C8 (amended): in the consumer module, every free-text piece
interpolated by `formatSignalMessage` and `formatNewsMessage` is
included through `escapeMarkdown`, whose output always has every
Markdown special character immediately preceded by a backslash; the
single-tick endpoint, however, interpolates free text with no
escaping. -/
theorem markdown_escaping (sig : Sig) (n : News) (f : String)
    (hf : f ∈ signalFreeText sig ∨ f ∈ newsFreeText n) :
    (∀ s : String, escapedText (escapeMarkdown s) = true) ∧
    (∃ raw : String, f = escapeMarkdown raw) ∧
    escapedText f = true := by
  have himg : ∃ raw : String, f = escapeMarkdown raw := by
    rcases hf with hf | hf
    · obtain ⟨raw, _, hr⟩ := List.mem_map.mp hf
      exact ⟨raw, hr.symm⟩
    · obtain ⟨raw, _, hr⟩ := List.mem_map.mp hf
      exact ⟨raw, hr.symm⟩
  refine ⟨escapedText_escapeMarkdown, himg, ?_⟩
  obtain ⟨raw, hr⟩ := himg
  rw [hr]
  exact escapedText_escapeMarkdown raw

/-- Witness for C8 (amended) on the pair piece of a concrete signal. -/
theorem markdown_escaping_witness :
    (∀ s : String, escapedText (escapeMarkdown s) = true) ∧
    (∃ raw : String, escapeMarkdown "BTC/USDT" = escapeMarkdown raw) ∧
    escapedText (escapeMarkdown "BTC/USDT") = true :=
  markdown_escaping sigEx newsSendingEx (escapeMarkdown "BTC/USDT")
    (Or.inl (by decide))

/-- C4: when the transport send has succeeded but every one of the 3
status-commit attempts fails (backoff 1 s then 2 s), a delivery-failure
record holding the item id and the transport message id is written, the
document is left untouched in `sending` (not reverted to pending), and
nothing is rethrown. -/
theorem commit_failure_record (sig : Sig) (premiumChat freeChat : Option String)
    (msgId : Nat) (now : Int) (updFails : Nat → Bool) (ledgerFails : Bool)
    (ledger : Option Int) (chat : String)
    (hs : sig.status = "sending")
    (hchat : (if sig.is_premium = some true then premiumChat else freeChat) = some chat)
    (hfail : ∀ k, k < 3 → updFails k = true) :
    updateSignalDocumentWithRetry updFails 3 = (false, [1000, 2000]) ∧
    (sendSignalToPremium sig premiumChat freeChat msgId now updFails ledgerFails
        ledger).failureRecord =
      some { signalId := sig.id, telegramMessageId := msgId, channelId := chat } ∧
    (sendSignalToPremium sig premiumChat freeChat msgId now updFails ledgerFails
        ledger).sig = sig ∧
    (sendSignalToPremium sig premiumChat freeChat msgId now updFails ledgerFails
        ledger).sig.status = "sending" ∧
    (sendSignalToPremium sig premiumChat freeChat msgId now updFails ledgerFails
        ledger).threw = false := by
  have h0 : updFails 0 = true := hfail 0 (by omega)
  have h1 : updFails 1 = true := hfail 1 (by omega)
  have h2 : updFails 2 = true := hfail 2 (by omega)
  have hr : updateSignalDocumentWithRetry updFails 3 = (false, [1000, 2000]) := by
    simp [updateSignalDocumentWithRetry, updateWithRetry, h0, h1, h2]
  refine ⟨hr, ?_, ?_, ?_, ?_⟩ <;>
    simp [sendSignalToPremium, hchat, hr, hs]

/-- Witness for C4: a claimed signal, channel `P`, every update attempt
failing. -/
theorem commit_failure_record_witness :
    updateSignalDocumentWithRetry (fun _ => true) 3 = (false, [1000, 2000]) ∧
    (sendSignalToPremium sigSendingEx (some "P") (some "P") 42 7 (fun _ => true)
        false none).failureRecord =
      some { signalId := sigSendingEx.id, telegramMessageId := 42, channelId := "P" } ∧
    (sendSignalToPremium sigSendingEx (some "P") (some "P") 42 7 (fun _ => true)
        false none).sig = sigSendingEx ∧
    (sendSignalToPremium sigSendingEx (some "P") (some "P") 42 7 (fun _ => true)
        false none).sig.status = "sending" ∧
    (sendSignalToPremium sigSendingEx (some "P") (some "P") 42 7 (fun _ => true)
        false none).threw = false :=
  commit_failure_record sigSendingEx (some "P") (some "P") 42 7 (fun _ => true)
    false none "P" rfl (by simp [sigSendingEx, sigEx]) (fun _ _ => rfl)

/-- C5: after a confirmed send and a successful status commit, the
ledger write comes strictly after the status commit in the event trace;
and when the ledger write fails, nothing is thrown, the document keeps
its committed `active` status, exactly one transport send occurred, and
the document can no longer be claimed, so the failure cannot cause a
resend. -/
theorem ledger_after_status (sig : Sig) (premiumChat freeChat : Option String)
    (msgId : Nat) (now : Int) (updFails : Nat → Bool) (ledger : Option Int)
    (chat : String)
    (hchat : (if sig.is_premium = some true then premiumChat else freeChat) = some chat)
    (hok : (updateSignalDocumentWithRetry updFails 3).1 = true) :
    (sendSignalToPremium sig premiumChat freeChat msgId now updFails false ledger).events =
      Ev.transportSend chat (formatSignalMessage sig) ::
        (updateSignalDocumentWithRetry updFails 3).2.map Ev.retrySleep ++
        [Ev.statusCommit, Ev.ledgerWrite (signalTier sig)] ∧
    (sendSignalToPremium sig premiumChat freeChat msgId now updFails true ledger).threw
      = false ∧
    (sendSignalToPremium sig premiumChat freeChat msgId now updFails true
        ledger).sig.status = "active" ∧
    (sendSignalToPremium sig premiumChat freeChat msgId now updFails true ledger).events =
      Ev.transportSend chat (formatSignalMessage sig) ::
        (updateSignalDocumentWithRetry updFails 3).2.map Ev.retrySleep ++
        [Ev.statusCommit] ∧
    ((sendSignalToPremium sig premiumChat freeChat msgId now updFails true
        ledger).events.countP isSendEv) = 1 ∧
    (∀ t, claimSignal
        (sendSignalToPremium sig premiumChat freeChat msgId now updFails true ledger).sig
        t =
      ((sendSignalToPremium sig premiumChat freeChat msgId now updFails true ledger).sig,
       none)) := by
  refine ⟨?_, ?_, ?_, ?_, ?_, ?_⟩
  · simp [sendSignalToPremium, hchat, hok]
  · simp [sendSignalToPremium, hchat, hok]
  · simp [sendSignalToPremium, hchat, hok, commitActive]
  · simp [sendSignalToPremium, hchat, hok]
  · simp only [sendSignalToPremium, hchat, hok, if_true]
    simp [List.countP_cons, List.countP_append, List.countP_map, isSendEv,
      Function.comp]
  · intro t
    simp [sendSignalToPremium, hchat, hok, claimSignal, commitActive]

/-- Witness for C5: a claimed signal with a first-attempt commit
success. -/
theorem ledger_after_status_witness :
    (sendSignalToPremium sigSendingEx (some "P") (some "P") 42 7 (fun _ => false)
        false none).events =
      Ev.transportSend "P" (formatSignalMessage sigSendingEx) ::
        (updateSignalDocumentWithRetry (fun _ => false) 3).2.map Ev.retrySleep ++
        [Ev.statusCommit, Ev.ledgerWrite (signalTier sigSendingEx)] ∧
    (sendSignalToPremium sigSendingEx (some "P") (some "P") 42 7 (fun _ => false)
        true none).threw = false ∧
    (sendSignalToPremium sigSendingEx (some "P") (some "P") 42 7 (fun _ => false)
        true none).sig.status = "active" ∧
    (sendSignalToPremium sigSendingEx (some "P") (some "P") 42 7 (fun _ => false)
        true none).events =
      Ev.transportSend "P" (formatSignalMessage sigSendingEx) ::
        (updateSignalDocumentWithRetry (fun _ => false) 3).2.map Ev.retrySleep ++
        [Ev.statusCommit] ∧
    ((sendSignalToPremium sigSendingEx (some "P") (some "P") 42 7 (fun _ => false)
        true none).events.countP isSendEv) = 1 ∧
    (∀ t, claimSignal
        (sendSignalToPremium sigSendingEx (some "P") (some "P") 42 7 (fun _ => false)
          true none).sig t =
      ((sendSignalToPremium sigSendingEx (some "P") (some "P") 42 7 (fun _ => false)
          true none).sig, none)) :=
  ledger_after_status sigSendingEx (some "P") (some "P") 42 7 (fun _ => false) none
    "P" rfl rfl

/-- C7: a claimed signal whose payload lacks both entry fields is only
logged: no cadence read, no transport send (hence nothing formatted),
no commit, no deferral; the pass leaves the document unchanged in
`sending`. -/
theorem validation_leaves_sending (sig : Sig) (premiumChat freeChat : Option String)
    (msgId : Nat) (now : Int) (updFails : Nat → Bool) (ledgerFails : Bool)
    (ledger : Option Int)
    (hs : sig.status = "sending") (hmiss : missingEntry sig = true) :
    processClaimedSignal sig premiumChat freeChat msgId now updFails ledgerFails
        ledger =
      { sig := sig, ledger := ledger, events := [Ev.logWarn], failureRecord := none,
        threw := false } ∧
    (processClaimedSignal sig premiumChat freeChat msgId now updFails ledgerFails
        ledger).sig.status = "sending" := by
  constructor
  · simp [processClaimedSignal, hmiss]
  · simp [processClaimedSignal, hmiss, hs]

/-- Witness for C7 at a claimed signal with both entry fields absent. -/
theorem validation_leaves_sending_witness :
    processClaimedSignal sigNoEntryEx (some "P") (some "P") 42 7 (fun _ => false)
        false none =
      { sig := sigNoEntryEx, ledger := none, events := [Ev.logWarn],
        failureRecord := none, threw := false } ∧
    (processClaimedSignal sigNoEntryEx (some "P") (some "P") 42 7 (fun _ => false)
        false none).sig.status = "sending" :=
  validation_leaves_sending sigNoEntryEx (some "P") (some "P") 42 7 (fun _ => false)
    false none rfl (by decide)

/-- C9 counterexample: a pending, unexpired signal whose `is_premium`
field is absent passes the fetch filter (`$ne: false` also matches a
missing field), is returned by the tick fetch, and is nevertheless
routed to the free tier, so the free-tier branch is reachable. -/
theorem premium_filter_counterexample :
    eligibleSig 5 sigNoTierEx = true ∧
    sigNoTierEx ∈ tickFetch [sigNoTierEx] 5 ∧
    signalTier sigNoTierEx = "free" :=
  ⟨by decide, by decide, rfl⟩

/-- C9 (amended): every fetched candidate has `is_premium ≠ false`, and
a candidate with `is_premium = true` takes the premium branch; but the
free branch is not unreachable — it is taken exactly for fetched
candidates whose `is_premium` field is absent. -/
theorem premium_filter (store : List Sig) (now : Int) (limit : Nat) (s : Sig)
    (hmem : s ∈ fetchPendingSignals store now limit) :
    s.is_premium ≠ some false ∧
    (s.is_premium = some true → signalTier s = "premium") ∧
    (signalTier s = "free" ↔ s.is_premium = none) := by
  have hfil : s ∈ store.filter fun x => eligibleSig now x := by
    have h1 : s ∈ List.insertionSort genLE (store.filter fun x => eligibleSig now x) :=
      (List.take_sublist _ _).mem hmem
    exact (List.mem_insertionSort genLE).mp h1
  have helig : eligibleSig now s = true := (List.mem_filter.mp hfil).2
  have hne : s.is_premium ≠ some false := by
    simp only [eligibleSig, Bool.and_eq_true, decide_eq_true_eq] at helig
    exact helig.1.2
  refine ⟨hne, ?_, ?_⟩
  · intro h
    simp [signalTier, h]
  · rcases hb : s.is_premium with _ | b
    · simp [signalTier, hb]
    · cases b
      · exact absurd hb hne
      · simp [signalTier, hb]

/-- Witness for C9 (amended) at a concrete fetched candidate. -/
theorem premium_filter_witness :
    sigEx.is_premium ≠ some false ∧
    (sigEx.is_premium = some true → signalTier sigEx = "premium") ∧
    (signalTier sigEx = "free" ↔ sigEx.is_premium = none) :=
  premium_filter [sigEx] 5 10 sigEx (by decide)

/-- C10: when the transport send of a claimed news item fails, the item
is conditionally reset from `sending` to `pending` with `failed_at`
set, the news ledger is untouched, the error is caught and only logged
(nothing escapes `publishNewsIfReady`, so the tick continues), and the
item is claimable again: before its expiry it passes the candidate
filter, and a later claim succeeds. -/
theorem news_failure_requeue (n : News) (chat : String) (now : Int)
    (ledger : Option Int) (hs : n.status = some "sending") :
    (publishClaimedNews n chat false now ledger).news.status = some "pending" ∧
    (publishClaimedNews n chat false now ledger).news.failed_at = some now ∧
    (publishClaimedNews n chat false now ledger).ledger = ledger ∧
    (publishClaimedNews n chat false now ledger).threw = false ∧
    (∀ m : News, m.status ≠ some "sending" → revertNews m now = m) ∧
    (∀ t2 : Int,
      (claimNews (publishClaimedNews n chat false now ledger).news t2).2 =
        some { (publishClaimedNews n chat false now ledger).news with
                 status := some "sending", claimed_at := some t2 }) ∧
    (∀ t2 : Int, t2 < n.expires_at →
      eligibleNews t2 (publishClaimedNews n chat false now ledger).news = true) := by
  refine ⟨?_, ?_, rfl, rfl, ?_, ?_, ?_⟩
  · simp [publishClaimedNews, revertNews, hs]
  · simp [publishClaimedNews, revertNews, hs]
  · intro m hm
    simp [revertNews, hm]
  · intro t2
    simp [publishClaimedNews, revertNews, hs, claimNews, newsClaimable]
  · intro t2 ht
    simp [publishClaimedNews, revertNews, hs, eligibleNews, newsClaimable, ht]

/-- Witness for C10 at a concrete claimed news item. -/
theorem news_failure_requeue_witness :
    (publishClaimedNews newsSendingEx "P" false 9 none).news.status = some "pending" ∧
    (publishClaimedNews newsSendingEx "P" false 9 none).news.failed_at = some 9 ∧
    (publishClaimedNews newsSendingEx "P" false 9 none).ledger = none ∧
    (publishClaimedNews newsSendingEx "P" false 9 none).threw = false ∧
    (∀ m : News, m.status ≠ some "sending" → revertNews m 9 = m) ∧
    (∀ t2 : Int,
      (claimNews (publishClaimedNews newsSendingEx "P" false 9 none).news t2).2 =
        some { (publishClaimedNews newsSendingEx "P" false 9 none).news with
                 status := some "sending", claimed_at := some t2 }) ∧
    (∀ t2 : Int, t2 < newsSendingEx.expires_at →
      eligibleNews t2 (publishClaimedNews newsSendingEx "P" false 9 none).news = true) :=
  news_failure_requeue newsSendingEx "P" 9 none rfl

/-- C6 counterexample: with eleven eligible pending signals, the
long-lived consumer's tick fetch returns only ten of them, while a cap
of twenty (as the claim states, and as the single-tick endpoint uses)
would return all eleven. -/
theorem fetch_limit_counterexample :
    (∀ s ∈ store11, eligibleSig 0 s = true) ∧
    (store11.filter fun s => eligibleSig 0 s).length = 11 ∧
    (tickFetch store11 0).length = 10 ∧
    (runConsumerFetch store11 0).length = 11 := by
  refine ⟨by decide, by decide, by decide, by decide⟩

/-- C6 (amended): the long-lived consumer's per-tick signal fetch
returns at most 10 candidates (the single-tick endpoint at most 20);
every returned candidate is pending, not free-tier-excluded and
strictly unexpired; the batch is ordered by ascending `generated_at`;
when at most 10 documents are eligible the tick fetch misses none; and
at most one news candidate is selected per tick. -/
theorem fetch_batch (store : List Sig) (newsStore : List News) (now : Int) :
    (tickFetch store now).length ≤ 10 ∧
    (runConsumerFetch store now).length ≤ 20 ∧
    (∀ s ∈ tickFetch store now, eligibleSig now s = true) ∧
    (tickFetch store now).Sorted genLE ∧
    ((store.filter fun s => eligibleSig now s).length ≤ 10 →
      ∀ s ∈ store, eligibleSig now s = true → s ∈ tickFetch store now) ∧
    (findNewsCandidate newsStore now).toList.length ≤ 1 := by
  refine ⟨?_, ?_, ?_, ?_, ?_, ?_⟩
  · simp only [tickFetch, fetchPendingSignals, List.length_take]
    exact min_le_left _ _
  · simp only [runConsumerFetch, fetchPendingSignals, List.length_take]
    exact min_le_left _ _
  · intro s hs
    have h1 : s ∈ List.insertionSort genLE (store.filter fun x => eligibleSig now x) :=
      (List.take_sublist _ _).mem hs
    exact (List.mem_filter.mp ((List.mem_insertionSort genLE).mp h1)).2
  · exact ((List.sorted_insertionSort genLE _).sublist (List.take_sublist _ _))
  · intro hlen s hmem helig
    have hlen2 : (List.insertionSort genLE
        (store.filter fun x => eligibleSig now x)).length ≤ 10 := by
      rwa [List.length_insertionSort]
    have htake : (List.insertionSort genLE
        (store.filter fun x => eligibleSig now x)).take 10 =
        List.insertionSort genLE (store.filter fun x => eligibleSig now x) :=
      List.take_of_length_le hlen2
    show s ∈ (List.insertionSort genLE (store.filter fun x => eligibleSig now x)).take 10
    rw [htake, List.mem_insertionSort]
    exact List.mem_filter.mpr ⟨hmem, helig⟩
  · rcases h : (List.insertionSort newsGE
        (newsStore.filter fun n => eligibleNews now n)).head? with _ | n <;>
      simp [findNewsCandidate, h]

/-- Witness for C6 (amended): the completeness conjunct instantiated on
a singleton store. -/
theorem fetch_batch_witness :
    sigEx ∈ tickFetch [sigEx] 5 :=
  (fetch_batch [sigEx] [] 5).2.2.2.2.1 (by decide) sigEx (by decide) (by decide)

end SignalBot
